import Mathlib

/-!
This file is a shallow embedding, in Lean 4, of the two deployment scripts
of the repository: deploy_backend.py and setup_dynamodb.py.  The cloud
provider (AWS, reached through boto3) is modelled as an explicit record of
resource registries; each section of the scripts becomes a Lean function
that transforms that record and emits a trace of the create/update
operations it performed.  Provider-side failures are modelled by an
explicit fault parameter injected into the fallible create calls, so that
the exception-handling paths of the scripts are represented faithfully.
-/

namespace QuestDeploy

/-- Err models the provider exception classes the scripts interact with
(boto3 client error codes). -/
inductive Err where
  | entityAlreadyExists
  | resourceConflict
  | resourceNotFound
  | resourceInUse
  | accessDenied
  | throttling
  deriving DecidableEq, Repr

/-! Python substring membership.  The scripts test membership with the
Python operator (needle in haystack) twice: the integration probe
(deploy_backend.py line 156) and the ResourceInUse / table-kind checks
(setup_dynamodb.py lines 20, 32, 36).  We model it over the character
lists underlying Lean strings. -/

/-- startsWithL n h is true when the list n is an initial segment of h. -/
def startsWithL : List Char → List Char → Bool
  | [], _ => true
  | _ :: _, [] => false
  | a :: as, b :: bs => a == b && startsWithL as bs

/-- pyInL n h is the Python substring test: n occurs contiguously in h. -/
def pyInL (n : List Char) : List Char → Bool
  | [] => n.isEmpty
  | c :: t => startsWithL n (c :: t) || pyInL n t

/-- pyIn n h models the Python expression (n in h) on strings. -/
def pyIn (n h : String) : Bool := pyInL n.data h.data

/-! Provider state: one registry per resource kind managed by the scripts. -/

/-- FnRec is a Lambda function record as create_function stores it
(deploy_backend.py lines 117-125). -/
structure FnRec where
  name : String
  arn : String
  role : Option String
  code : List UInt8
  env : List (String × String)
  runtime : String
  handler : String
  timeout : Nat
  deriving DecidableEq, Repr

/-- ApiRec is an API Gateway v2 API record (create_api, lines 136-144). -/
structure ApiRec where
  apiId : String
  name : String
  protocolType : String
  corsAllowOrigins : List String
  corsAllowMethods : List String
  corsAllowHeaders : List String
  deriving DecidableEq, Repr

/-- IntegRec is an API Gateway integration record (create_integration,
lines 162-167). -/
structure IntegRec where
  apiId : String
  integrationId : String
  integrationType : String
  uri : String
  payloadFormatVersion : String
  deriving DecidableEq, Repr

/-- RouteRec is an API Gateway route record (create_route, lines 178-182). -/
structure RouteRec where
  apiId : String
  routeKey : String
  target : String
  deriving DecidableEq, Repr

/-- StageRec is an API Gateway stage record (create_stage, lines 189-193). -/
structure StageRec where
  apiId : String
  stageName : String
  autoDeploy : Bool
  deriving DecidableEq, Repr

/-- PermRec is a Lambda resource-policy statement as add_permission stores
it (lines 198-204); a duplicate (function, statementId) pair raises
ResourceConflictException. -/
structure PermRec where
  fnName : String
  statementId : String
  action : String
  principal : String
  sourceArn : String
  deriving DecidableEq, Repr

/-- ProviderState is the remote provider resource registry the scripts
reconcile against. -/
structure ProviderState where
  roles : List String
  attachments : List (String × String)
  functions : List FnRec
  apis : List ApiRec
  integrations : List IntegRec
  routes : List RouteRec
  stages : List StageRec
  permissions : List PermRec
  nextId : Nat
  deriving DecidableEq, Repr

/-- emptyState is the empty provider: no resource of any kind exists. -/
def emptyState : ProviderState :=
  { roles := [], attachments := [], functions := [], apis := []
    integrations := [], routes := [], stages := [], permissions := []
    nextId := 0 }

/-- Op is the trace alphabet: one constructor per mutating provider call
made by deploy_backend.py, plus two markers recording the points where the
role identifier (line 85-87) and the function ARN (line 158) are resolved. -/
inductive Op where
  | createRole (name : String)
  | createFunction (name : String) (role : Option String)
  | updateFunctionCode (name : String)
  | updateFunctionConfig (name : String)
  | createApi (name : String)
  | createIntegration (apiId : String) (uri : String)
  | createRoute (apiId : String) (routeKey : String)
  | createStage (apiId : String) (stageName : String)
  | addPermission (fnName : String) (statementId : String)
  | roleResolved (arn : Option String)
  | fnResolved (arn : String)
  deriving DecidableEq, Repr

/-- Op.isCreate marks the six resource-creating calls of the script
(create_role, create_function, create_api, create_integration,
create_route, create_stage). -/
def Op.isCreate : Op → Bool
  | .createRole _ => true
  | .createFunction _ _ => true
  | .createApi _ => true
  | .createIntegration _ _ => true
  | .createRoute _ _ => true
  | .createStage _ _ => true
  | _ => false

/-- accountId models the fixed account returned by sts get_caller_identity
(line 203). -/
def accountId : String := "123456789012"

/-- roleArnOf is the deterministic ARN the provider assigns to an IAM role
by name. -/
def roleArnOf (name : String) : String :=
  "arn:aws:iam::" ++ accountId ++ ":role/" ++ name

/-- fnArnOf is the deterministic ARN the provider assigns to a Lambda
function by region and name. -/
def fnArnOf (region name : String) : String :=
  "arn:aws:lambda:" ++ region ++ ":" ++ accountId ++ ":function:" ++ name

/-- freshId is the opaque identifier the provider assigns to the next
created API or integration. -/
def freshId (st : ProviderState) : String := "id" ++ Nat.repr st.nextId

/-! The IAM role path: get_role_arn (lines 9-14) and create_lambda_role
(lines 16-54). -/

/-- get_role_arn probes for a role by name: the Arn when it exists, none
when get_role raises NoSuchEntityException (lines 9-14). -/
def get_role_arn (st : ProviderState) (role_name : String) : Option String :=
  if st.roles.contains role_name then some (roleArnOf role_name) else none

/-- create_role is the provider call iam.create_role (lines 30-33): it
fails with EntityAlreadyExists on a duplicate name, with the injected
fault when one is given, and otherwise registers the role. -/
def create_role (st : ProviderState) (role_name : String) (fault : Option Err) :
    Except Err (ProviderState × String) :=
  match fault with
  | some e => .error e
  | none =>
    if st.roles.contains role_name then .error .entityAlreadyExists
    else .ok ({ st with roles := role_name :: st.roles }, roleArnOf role_name)

/-- create_lambda_role (lines 16-54): create the role, attach the two
managed policies and return the Arn; on any exception print and fall back
to a single re-probe, returning whatever the probe finds (possibly none).
The exception is swallowed, never re-raised. -/
def create_lambda_role (st : ProviderState) (role_name : String)
    (fault : Option Err) : ProviderState × Option String × List Op :=
  match create_role st role_name fault with
  | .ok (st1, arn) =>
    let st2 := { st1 with attachments :=
      (role_name, "arn:aws:iam::aws:policy/AmazonDynamoDBFullAccess") ::
      (role_name, "arn:aws:iam::aws:policy/service-role/AWSLambdaBasicExecutionRole") ::
      st1.attachments }
    (st2, some arn, [Op.createRole role_name])
  | .error _ => (st, get_role_arn st role_name, [])

/-- roleStep is the role section of main (lines 84-87): probe, create on a
miss, and record the resolved identifier. -/
def roleStep (st : ProviderState) (role_name : String) (fault : Option Err) :
    ProviderState × Option String × List Op :=
  match get_role_arn st role_name with
  | some arn => (st, some arn, [Op.roleResolved (some arn)])
  | none =>
    match create_lambda_role st role_name fault with
    | (st1, arn, ops) => (st1, arn, ops ++ [Op.roleResolved arn])

/-- functionStep is the Lambda section of main (lines 102-125): on a
successful get_function, update code then configuration; on
ResourceNotFoundException, create the function with the given role. -/
def functionStep (st : ProviderState) (region function_name : String)
    (zip_content : List UInt8) (env_vars : List (String × String))
    (role_arn : Option String) : ProviderState × List Op :=
  match st.functions.find? (fun f => f.name == function_name) with
  | some _ =>
    let fns1 := st.functions.map (fun f =>
      if f.name == function_name then { f with code := zip_content } else f)
    let fns2 := fns1.map (fun f =>
      if f.name == function_name then { f with env := env_vars } else f)
    ({ st with functions := fns2 },
     [Op.updateFunctionCode function_name, Op.updateFunctionConfig function_name])
  | none =>
    ({ st with functions :=
        { name := function_name, arn := fnArnOf region function_name
          role := role_arn, code := zip_content, env := env_vars
          runtime := "python3.9", handler := "lambda_function.lambda_handler"
          timeout := 15 } :: st.functions },
     [Op.createFunction function_name role_arn])

/-- apiStep is the API section of main (lines 128-148): list the APIs,
take the first whose Name matches, and create one when there is none. -/
def apiStep (st : ProviderState) (api_name : String) :
    ProviderState × String × List Op :=
  match (st.apis.find? (fun a => a.name == api_name)).map (fun a => a.apiId) with
  | some api_id => (st, api_id, [])
  | none =>
    let api_id := freshId st
    ({ st with
        apis := { apiId := api_id, name := api_name, protocolType := "HTTP"
                  corsAllowOrigins := ["*"]
                  corsAllowMethods := ["GET", "POST", "OPTIONS"]
                  corsAllowHeaders := ["content-type"] } :: st.apis
        nextId := st.nextId + 1 },
     api_id, [Op.createApi api_name])

/-- lambdaArnOfState is the get_function re-probe of line 158, reading the
FunctionArn of the named function; the empty-string branch is unreachable
after functionStep, where get_function would instead raise. -/
def lambdaArnOfState (st : ProviderState) (function_name : String) : String :=
  match st.functions.find? (fun f => f.name == function_name) with
  | some f => f.arn
  | none => ""

/-- integrationMatch is the integration probe of line 156: the first
integration of the API whose IntegrationUri contains the substring
quest-api. -/
def integrationMatch (st : ProviderState) (api_id : String) : Option IntegRec :=
  (st.integrations.filter (fun i => i.apiId == api_id)).find?
    (fun i => pyIn "quest-api" i.uri)

/-- integrationStep is the integration section of main (lines 154-168):
list the API integrations and take the first whose IntegrationUri contains
the substring quest-api; re-probe the function for its ARN (line 158); when
no integration matched, create an AWS_PROXY integration at that ARN with
payload format 2.0. -/
def integrationStep (st : ProviderState) (api_id function_name : String) :
    ProviderState × String × String × List Op :=
  let found := (integrationMatch st api_id).map (fun i => i.integrationId)
  let lambda_arn := lambdaArnOfState st function_name
  match found with
  | some integration_id =>
    (st, integration_id, lambda_arn, [Op.fnResolved lambda_arn])
  | none =>
    let integration_id := freshId st
    ({ st with
        integrations := { apiId := api_id, integrationId := integration_id
                          integrationType := "AWS_PROXY", uri := lambda_arn
                          payloadFormatVersion := "2.0" } :: st.integrations
        nextId := st.nextId + 1 },
     integration_id, lambda_arn,
     [Op.fnResolved lambda_arn, Op.createIntegration api_id lambda_arn])

/-- route_key is the fixed catch-all route key of line 173. -/
def route_key : String := "ANY /\x7bproxy+\x7d"

/-- routeStep is the route section of main (lines 172-182): create the
catch-all route targeting the integration unless a route with the same key
already exists on the API. -/
def routeStep (st : ProviderState) (api_id integration_id : String) :
    ProviderState × List Op :=
  if (st.routes.filter (fun r => r.apiId == api_id)).any
      (fun r => r.routeKey == route_key) then
    (st, [])
  else
    ({ st with routes := { apiId := api_id, routeKey := route_key
                           target := "integrations/" ++ integration_id } :: st.routes },
     [Op.createRoute api_id route_key])

/-- stageStep is the stage section of main (lines 185-193): create the
auto-deploying default stage unless it exists. -/
def stageStep (st : ProviderState) (api_id : String) :
    ProviderState × List Op :=
  match (st.stages.filter (fun s => s.apiId == api_id)).find?
      (fun s => s.stageName == "$default") with
  | some _ => (st, [])
  | none =>
    ({ st with stages := { apiId := api_id, stageName := "$default"
                           autoDeploy := true } :: st.stages },
     [Op.createStage api_id "$default"])

/-- add_permission is the provider call awslambda.add_permission
(lines 198-204): it fails with the injected fault when one is given, with
ResourceConflictException on a duplicate statement id for the function, and
otherwise registers the statement. -/
def add_permission (st : ProviderState) (function_name statement_id source_arn : String)
    (fault : Option Err) : Except Err ProviderState :=
  match fault with
  | some e => .error e
  | none =>
    if st.permissions.any (fun p =>
        p.fnName == function_name && p.statementId == statement_id) then
      .error .resourceConflict
    else
      .ok { st with permissions :=
        { fnName := function_name, statementId := statement_id
          action := "lambda:InvokeFunction", principal := "apigateway.amazonaws.com"
          sourceArn := source_arn } :: st.permissions }

/-- permissionStep is the permission section of main (lines 197-207): the
try block around add_permission whose except clause catches exactly
ResourceConflictException, treating it as success; every other exception
propagates. -/
def permissionStep (st : ProviderState) (function_name statement_id source_arn : String)
    (fault : Option Err) : Except Err (ProviderState × List Op) :=
  match add_permission st function_name statement_id source_arn fault with
  | .ok st1 => .ok (st1, [Op.addPermission function_name statement_id])
  | .error e =>
    if e == Err.resourceConflict then .ok (st, []) else .error e

/-- RunResult packages the identifiers main resolves and the operation
trace of one run. -/
structure RunResult where
  roleArn : Option String
  fnArn : String
  apiId : String
  integrationId : String
  endpoint : String
  ops : List Op
  deriving DecidableEq, Repr

/-- mainRun is main of deploy_backend.py (lines 69-213) under a fault-free
provider except for an injectable fault on iam.create_role: resolve the
role, reconcile the function with the packaged bytes (zip_content stands
for the create_zip output of line 93), reconcile the API, integration,
route and stage, grant the invocation permission (its conflict caught as
in lines 197-207, which under this fault setting is the only possible
add_permission error), and report the endpoint of line 209. -/
def mainRun (st0 : ProviderState) (region suffix : String)
    (zip_content : List UInt8) (roleFault : Option Err) :
    ProviderState × RunResult :=
  let role_name := "QuestLambdaRole" ++ suffix
  match roleStep st0 role_name roleFault with
  | (st1, role_arn, ops1) =>
    let function_name := "quest-api" ++ suffix
    let env_vars := [("DYNAMODB_TABLE_SESSIONS", "quest-sessions" ++ suffix),
                     ("DYNAMODB_TABLE_TEAMS", "quest-teams" ++ suffix)]
    match functionStep st1 region function_name zip_content env_vars role_arn with
    | (st2, ops2) =>
      let api_name := "quest-api-gateway" ++ suffix
      match apiStep st2 api_name with
      | (st3, api_id, ops3) =>
        match integrationStep st3 api_id function_name with
        | (st4, integration_id, lambda_arn, ops4) =>
          match routeStep st4 api_id integration_id with
          | (st5, ops5) =>
            match stageStep st5 api_id with
            | (st6, ops6) =>
              let statement_id := "apigateway-invoke-" ++ api_id
              let source_arn := "arn:aws:execute-api:" ++ region ++ ":" ++
                accountId ++ ":" ++ api_id ++ "/*/*"
              match permissionStep st6 function_name statement_id source_arn none with
              | .ok (st7, ops7) =>
                (st7,
                 { roleArn := role_arn, fnArn := lambda_arn, apiId := api_id
                   integrationId := integration_id
                   endpoint := "https://" ++ api_id ++ ".execute-api." ++
                     region ++ ".amazonaws.com"
                   ops := ops1 ++ ops2 ++ ops3 ++ ops4 ++ ops5 ++ ops6 ++ ops7 })
              | .error _ =>
                (st6,
                 { roleArn := role_arn, fnArn := lambda_arn, apiId := api_id
                   integrationId := integration_id
                   endpoint := "https://" ++ api_id ++ ".execute-api." ++
                     region ++ ".amazonaws.com"
                   ops := ops1 ++ ops2 ++ ops3 ++ ops4 ++ ops5 ++ ops6 })

/-! Packaging (create_zip, deploy_backend.py lines 56-67).  The directory
tree under the source directory is modelled as a list of entries; os.walk
visits every file below the root, and each file whose name ends in .py is
written to the archive under its path relative to the source directory
(modelled as the list of directory segments plus the file name). -/

/-- Entry is a node of the source directory tree: a plain file or a
subdirectory with its children. -/
inductive Entry where
  | file (name : String)
  | dir (name : String) (children : List Entry)

mutual

/-- allFiles pre e lists every file below entry e with the directory
segments (relative to the walk root) under which os.walk reports it. -/
def allFiles (pre : List String) : Entry → List (List String × String)
  | .file n => [(pre, n)]
  | .dir d cs => allFilesList (pre ++ [d]) cs

/-- allFilesList pre cs lists every file below the entries cs. -/
def allFilesList (pre : List String) : List Entry → List (List String × String)
  | [] => []
  | e :: es => allFiles pre e ++ allFilesList pre es

end

mutual

/-- zipFiles pre e lists the archive members create_zip writes for entry e:
files whose name ends in .py, under their relative path. -/
def zipFiles (pre : List String) : Entry → List (List String × String)
  | .file n => if n.endsWith ".py" then [(pre, n)] else []
  | .dir d cs => zipFilesList (pre ++ [d]) cs

/-- zipFilesList pre cs lists the archive members for the entries cs. -/
def zipFilesList (pre : List String) : List Entry → List (List String × String)
  | [] => []
  | e :: es => zipFiles pre e ++ zipFilesList pre es

end

/-- create_zip (lines 56-67) on the children of the source directory: the
archive holds exactly the .py files below it, keyed by relative path. -/
def create_zip (children : List Entry) : List (List String × String) :=
  zipFilesList [] children

/-! Table setup (setup_dynamodb.py). -/

/-- TableRec is a DynamoDB table record as create_table stores it
(setup_dynamodb.py lines 6-11). -/
structure TableRec where
  name : String
  hashKey : String
  attrType : String
  deriving DecidableEq, Repr

/-- DynState is the DynamoDB registry: the tables that exist and the
time-to-live settings that have been applied. -/
structure DynState where
  tables : List TableRec
  ttl : List (String × String)
  deriving DecidableEq, Repr

/-- emptyDyn is the empty DynamoDB registry. -/
def emptyDyn : DynState := { tables := [], ttl := [] }

/-- dynamodb_create_table is the provider call dynamodb.create_table
(setup_dynamodb.py lines 6-11): it fails with the injected fault when one
is given, with ResourceInUseException on a duplicate name, and otherwise
registers the table. -/
def dynamodb_create_table (st : DynState) (table_name hashKey attrType : String)
    (fault : Option Err) : Except Err DynState :=
  match fault with
  | some e => .error e
  | none =>
    if st.tables.any (fun t => t.name == table_name) then .error .resourceInUse
    else .ok { st with tables :=
      { name := table_name, hashKey := hashKey, attrType := attrType } :: st.tables }

/-- update_time_to_live is the provider call enabling TTL on the expiresAt
attribute (lines 23-29 and 38-41); modelled as always succeeding, so the
inner try of lines 35-44 never takes its except path. -/
def update_time_to_live (st : DynState) (table_name attr : String) : DynState :=
  { st with ttl := (table_name, attr) :: st.ttl }

/-- create_table (setup_dynamodb.py lines 4-47): create the table and
enable TTL when the name mentions sessions or teams; on an exception whose
text mentions ResourceInUseException, report the table as existing and
re-apply TTL; on any other exception print the error and return normally —
the error is swallowed, not propagated. -/
def create_table (st : DynState) (table_name hashKey attrType : String)
    (fault : Option Err) : DynState :=
  match dynamodb_create_table st table_name hashKey attrType fault with
  | .ok st1 =>
    if pyIn "sessions" table_name || pyIn "teams" table_name then
      update_time_to_live st1 table_name "expiresAt"
    else st1
  | .error e =>
    if e == Err.resourceInUse then
      if pyIn "sessions" table_name || pyIn "teams" table_name then
        update_time_to_live st table_name "expiresAt"
      else st
    else st

/-- dynMain is main of setup_dynamodb.py (lines 51-86): derive both table
names from the suffix and provision the sessions table, then the teams
table, with a fault injectable into each create call. -/
def dynMain (st : DynState) (suffix : String) (fault1 fault2 : Option Err) :
    DynState × List String :=
  let sessions_table := "quest-sessions" ++ suffix
  let teams_table := "quest-teams" ++ suffix
  let st1 := create_table st sessions_table "sessionId" "S" fault1
  let st2 := create_table st1 teams_table "teamCode" "S" fault2
  (st2, [sessions_table, teams_table])

/-! Derived resource names (deploy_backend.py lines 84, 89, 97-98, 128 and
setup_dynamodb.py lines 63-64). -/

/-- roleName is the IAM role name derived from the environment suffix. -/
def roleName (suffix : String) : String := "QuestLambdaRole" ++ suffix

/-- functionName is the Lambda function name derived from the suffix. -/
def functionName (suffix : String) : String := "quest-api" ++ suffix

/-- apiName is the API Gateway name derived from the suffix. -/
def apiName (suffix : String) : String := "quest-api-gateway" ++ suffix

/-- sessionsName is the sessions table name derived from the suffix. -/
def sessionsName (suffix : String) : String := "quest-sessions" ++ suffix

/-- teamsName is the teams table name derived from the suffix. -/
def teamsName (suffix : String) : String := "quest-teams" ++ suffix

/-- allNames lists every resource name a pair of runs with the given
suffix derives. -/
def allNames (suffix : String) : List String :=
  [roleName suffix, functionName suffix, apiName suffix,
   sessionsName suffix, teamsName suffix]

/-- specEndpoint is the endpoint shape claimed by the specification,
modelled from the spec words: https, the entry point identifier, the
region, and the example-provider.net host. -/
def specEndpoint (api_id region : String) : String :=
  "https://" ++ api_id ++ "." ++ region ++ ".example-provider.net"

/-- envVarsOf is the environment-variable mapping of lines 96-100. -/
def envVarsOf (suffix : String) : List (String × String) :=
  [("DYNAMODB_TABLE_SESSIONS", "quest-sessions" ++ suffix),
   ("DYNAMODB_TABLE_TEAMS", "quest-teams" ++ suffix)]

/-- stFnOnly is a provider state left by a prior partial run: the function
quest-api-dev exists but the role registry is empty. -/
def stFnOnly : ProviderState :=
  { emptyState with
    functions := [{ name := "quest-api-dev"
                    arn := fnArnOf "us-east-1" "quest-api-dev"
                    role := some (roleArnOf "QuestLambdaRole-dev")
                    code := [], env := envVarsOf "-dev"
                    runtime := "python3.9", handler := "lambda_function.lambda_handler"
                    timeout := 15 }] }

/-- integX is an integration whose backend target is the function
quest-api-zzz, a deployable of a different environment than -dev. -/
def integX : IntegRec :=
  { apiId := "api0", integrationId := "intX", integrationType := "AWS_PROXY"
    uri := fnArnOf "us-east-1" "quest-api-zzz", payloadFormatVersion := "2.0" }

/-- stForeignInteg is a fully provisioned -dev environment whose only
integration targets the foreign deployable quest-api-zzz rather than
quest-api-dev. -/
def stForeignInteg : ProviderState :=
  { roles := ["QuestLambdaRole-dev"]
    attachments := []
    functions := [{ name := "quest-api-dev", arn := fnArnOf "us-east-1" "quest-api-dev"
                    role := some (roleArnOf "QuestLambdaRole-dev"), code := []
                    env := envVarsOf "-dev", runtime := "python3.9"
                    handler := "lambda_function.lambda_handler", timeout := 15 }]
    apis := [{ apiId := "api0", name := "quest-api-gateway-dev", protocolType := "HTTP"
               corsAllowOrigins := ["*"], corsAllowMethods := ["GET", "POST", "OPTIONS"]
               corsAllowHeaders := ["content-type"] }]
    integrations := [integX]
    routes := [{ apiId := "api0", routeKey := route_key, target := "integrations/intX" }]
    stages := [{ apiId := "api0", stageName := "$default", autoDeploy := true }]
    permissions := [{ fnName := "quest-api-dev", statementId := "apigateway-invoke-api0"
                      action := "lambda:InvokeFunction", principal := "apigateway.amazonaws.com"
                      sourceArn := "arn:aws:execute-api:us-east-1:123456789012:api0/*/*" }]
    nextId := 0 }

/-! Helper lemmas. -/

/-- startsWithL_self_append shows a list is a starting segment of itself
followed by anything. -/
theorem startsWithL_self_append (n c : List Char) : startsWithL n (n ++ c) = true := by
  induction n with
  | nil => rfl
  | cons a as ih => simp [startsWithL, ih]

/-- pyInL_self_append shows the substring test succeeds when the haystack
begins with the needle. -/
theorem pyInL_self_append (n c : List Char) : pyInL n (n ++ c) = true := by
  cases n with
  | nil =>
    cases c with
    | nil => rfl
    | cons x xs => simp [pyInL, startsWithL]
  | cons a as =>
    simp [pyInL, startsWithL_self_append ((a :: as)) c]
    simp [startsWithL] at *
    exact Or.inl (startsWithL_self_append as c)

/-- pyInL_append_left shows the substring test is preserved by prepending
to the haystack. -/
theorem pyInL_append_left (n a h : List Char) (hh : pyInL n h = true) :
    pyInL n (a ++ h) = true := by
  induction a with
  | nil => simpa using hh
  | cons x xs ih => simp [pyInL, ih]

/-- pyIn_of_data_split shows the string substring test succeeds whenever
the haystack data splits around the needle data. -/
theorem pyIn_of_data_split (n h : String) (a c : List Char)
    (hs : h.data = a ++ (n.data ++ c)) : pyIn n h = true := by
  unfold pyIn
  rw [hs]
  exact pyInL_append_left _ _ _ (pyInL_self_append _ _)

/-- pyIn_quest_fnArn shows the integration probe predicate holds on the
ARN of any function whose name extends quest-api. -/
theorem pyIn_quest_fnArn (region suffix : String) :
    pyIn "quest-api" (fnArnOf region ("quest-api" ++ suffix)) = true := by
  apply pyIn_of_data_split _ _
    (("arn:aws:lambda:" ++ region ++ ":" ++ accountId ++ ":function:").data)
    suffix.data
  simp [fnArnOf, String.data_append, List.append_assoc]

/-- pyIn_sessions shows the table-kind test holds on any sessions table
name. -/
theorem pyIn_sessions (suffix : String) :
    pyIn "sessions" ("quest-sessions" ++ suffix) = true := by
  apply pyIn_of_data_split _ _ ("quest-".data) suffix.data
  simp [String.data_append]

/-- pyIn_teams shows the table-kind test holds on any teams table name. -/
theorem pyIn_teams (suffix : String) :
    pyIn "teams" ("quest-teams" ++ suffix) = true := by
  apply pyIn_of_data_split _ _ ("quest-".data) suffix.data
  simp [String.data_append]

/-- String.append_right_injective shows appending to a fixed string on the
left is injective. -/
theorem append_right_inj (p s t : String) (h : p ++ s = p ++ t) : s = t := by
  have hd : p.data ++ s.data = p.data ++ t.data := by
    have := congrArg String.data h
    simpa [String.data_append] using this
  apply String.ext
  exact List.append_cancel_left hd

/-- stOne is the provider state after one run of mainRun against the empty
provider. -/
def stOne (region suffix : String) (bytes : List UInt8) : ProviderState :=
  { roles := ["QuestLambdaRole" ++ suffix]
    attachments :=
      [("QuestLambdaRole" ++ suffix, "arn:aws:iam::aws:policy/AmazonDynamoDBFullAccess"),
       ("QuestLambdaRole" ++ suffix, "arn:aws:iam::aws:policy/service-role/AWSLambdaBasicExecutionRole")]
    functions := [{ name := "quest-api" ++ suffix
                    arn := fnArnOf region ("quest-api" ++ suffix)
                    role := some (roleArnOf ("QuestLambdaRole" ++ suffix))
                    code := bytes, env := envVarsOf suffix
                    runtime := "python3.9", handler := "lambda_function.lambda_handler"
                    timeout := 15 }]
    apis := [{ apiId := "id" ++ Nat.repr 0, name := "quest-api-gateway" ++ suffix
               protocolType := "HTTP", corsAllowOrigins := ["*"]
               corsAllowMethods := ["GET", "POST", "OPTIONS"]
               corsAllowHeaders := ["content-type"] }]
    integrations := [{ apiId := "id" ++ Nat.repr 0, integrationId := "id" ++ Nat.repr 1
                       integrationType := "AWS_PROXY"
                       uri := fnArnOf region ("quest-api" ++ suffix)
                       payloadFormatVersion := "2.0" }]
    routes := [{ apiId := "id" ++ Nat.repr 0, routeKey := route_key
                 target := "integrations/" ++ ("id" ++ Nat.repr 1) }]
    stages := [{ apiId := "id" ++ Nat.repr 0, stageName := "$default", autoDeploy := true }]
    permissions := [{ fnName := "quest-api" ++ suffix
                      statementId := "apigateway-invoke-" ++ ("id" ++ Nat.repr 0)
                      action := "lambda:InvokeFunction"
                      principal := "apigateway.amazonaws.com"
                      sourceArn := "arn:aws:execute-api:" ++ region ++ ":" ++ accountId ++
                        ":" ++ ("id" ++ Nat.repr 0) ++ "/*/*" }]
    nextId := 2 }

/-- run1_eq computes the first run from the empty provider: every step
takes its create branch and the run reports the identifiers derived from
the suffix and the fresh-id counter. -/
theorem run1_eq (region suffix : String) (bytes : List UInt8) :
    mainRun emptyState region suffix bytes none =
      (stOne region suffix bytes,
       { roleArn := some (roleArnOf ("QuestLambdaRole" ++ suffix))
         fnArn := fnArnOf region ("quest-api" ++ suffix)
         apiId := "id" ++ Nat.repr 0
         integrationId := "id" ++ Nat.repr 1
         endpoint := "https://" ++ ("id" ++ Nat.repr 0) ++ ".execute-api." ++
           region ++ ".amazonaws.com"
         ops := [Op.createRole ("QuestLambdaRole" ++ suffix),
                 Op.roleResolved (some (roleArnOf ("QuestLambdaRole" ++ suffix))),
                 Op.createFunction ("quest-api" ++ suffix)
                   (some (roleArnOf ("QuestLambdaRole" ++ suffix))),
                 Op.createApi ("quest-api-gateway" ++ suffix),
                 Op.fnResolved (fnArnOf region ("quest-api" ++ suffix)),
                 Op.createIntegration ("id" ++ Nat.repr 0)
                   (fnArnOf region ("quest-api" ++ suffix)),
                 Op.createRoute ("id" ++ Nat.repr 0) route_key,
                 Op.createStage ("id" ++ Nat.repr 0) "$default",
                 Op.addPermission ("quest-api" ++ suffix)
                   ("apigateway-invoke-" ++ ("id" ++ Nat.repr 0))] }) := by
  simp [mainRun, roleStep, get_role_arn, create_lambda_role, create_role,
    functionStep, apiStep, integrationStep, integrationMatch, lambdaArnOfState,
    routeStep, stageStep, permissionStep, add_permission, emptyState, freshId,
    stOne, envVarsOf]

/-- run2_eq computes the second run from the state the first run reached:
every probe finds its resource, the function is rewritten with the same
bytes and configuration, and no create call is made. -/
theorem run2_eq (region suffix : String) (bytes : List UInt8) :
    mainRun (stOne region suffix bytes) region suffix bytes none =
      (stOne region suffix bytes,
       { roleArn := some (roleArnOf ("QuestLambdaRole" ++ suffix))
         fnArn := fnArnOf region ("quest-api" ++ suffix)
         apiId := "id" ++ Nat.repr 0
         integrationId := "id" ++ Nat.repr 1
         endpoint := "https://" ++ ("id" ++ Nat.repr 0) ++ ".execute-api." ++
           region ++ ".amazonaws.com"
         ops := [Op.roleResolved (some (roleArnOf ("QuestLambdaRole" ++ suffix))),
                 Op.updateFunctionCode ("quest-api" ++ suffix),
                 Op.updateFunctionConfig ("quest-api" ++ suffix),
                 Op.fnResolved (fnArnOf region ("quest-api" ++ suffix))] }) := by
  simp [mainRun, roleStep, get_role_arn, create_lambda_role, create_role,
    functionStep, apiStep, integrationStep, integrationMatch, lambdaArnOfState,
    routeStep, stageStep, permissionStep, add_permission, freshId, stOne,
    envVarsOf, pyIn_quest_fnArn, route_key]

/-- claim C1: for every environment suffix (and region and packaged bytes),
running the reconciliation twice from the empty provider yields the same
role, function, API and integration identifiers and the same endpoint on
both runs, and the second run invokes none of the six create operations. -/
theorem claim_C1_idempotent_second_run (region suffix : String) (bytes : List UInt8) :
    ((mainRun (mainRun emptyState region suffix bytes none).1 region suffix bytes none).2.roleArn
      = (mainRun emptyState region suffix bytes none).2.roleArn) ∧
    ((mainRun (mainRun emptyState region suffix bytes none).1 region suffix bytes none).2.fnArn
      = (mainRun emptyState region suffix bytes none).2.fnArn) ∧
    ((mainRun (mainRun emptyState region suffix bytes none).1 region suffix bytes none).2.apiId
      = (mainRun emptyState region suffix bytes none).2.apiId) ∧
    ((mainRun (mainRun emptyState region suffix bytes none).1 region suffix bytes none).2.integrationId
      = (mainRun emptyState region suffix bytes none).2.integrationId) ∧
    ((mainRun (mainRun emptyState region suffix bytes none).1 region suffix bytes none).2.endpoint
      = (mainRun emptyState region suffix bytes none).2.endpoint) ∧
    (∀ o ∈ (mainRun (mainRun emptyState region suffix bytes none).1 region suffix bytes none).2.ops,
      o.isCreate = false) := by
  simp [run1_eq, run2_eq, Op.isCreate]

/-- claim C2 counterexample: with the role absent, a role-creation failure
for a reason other than already-exists (AccessDenied) makes the re-probe
come back empty, yet nothing propagates: create_lambda_role returns
normally with no identifier and main runs to completion, reporting an
endpoint while the role identifier is still unresolved. -/
theorem claim_C2_counterexample :
    get_role_arn stFnOnly "QuestLambdaRole-dev" = none ∧
    (create_lambda_role stFnOnly "QuestLambdaRole-dev" (some Err.accessDenied)).2.1 = none ∧
    (mainRun stFnOnly "us-east-1" "-dev" [] (some Err.accessDenied)).2.roleArn = none ∧
    (mainRun stFnOnly "us-east-1" "-dev" [] (some Err.accessDenied)).2.endpoint =
      "https://id0.execute-api.us-east-1.amazonaws.com" := by
  refine ⟨rfl, rfl, rfl, by decide⟩

/-- claim C2 amended: if role creation fails for any reason,
create_lambda_role re-probes exactly once and returns the role identifier
when the re-probe finds it; when the re-probe finds nothing it returns no
identifier and the error is swallowed (printed only), so main continues
the run with an unresolved role identifier instead of aborting. -/
theorem claim_C2_amended (st : ProviderState) (role_name : String) (e : Err) :
    create_lambda_role st role_name (some e) = (st, get_role_arn st role_name, []) ∧
    (mainRun stFnOnly "us-east-1" "-dev" [] (some e)).2.roleArn = none ∧
    (mainRun stFnOnly "us-east-1" "-dev" [] (some e)).2.endpoint =
      "https://id0.execute-api.us-east-1.amazonaws.com" := by
  refine ⟨rfl, rfl, ?_⟩
  show "https://" ++ ("id" ++ Nat.repr 0) ++ ".execute-api." ++ "us-east-1" ++
    ".amazonaws.com" = "https://id0.execute-api.us-east-1.amazonaws.com"
  decide

/-- claim C3 counterexample: an AccessDenied failure from the sessions
table creation is caught and only printed; the run does not abort — it
continues and provisions the teams table, returning normally. -/
theorem claim_C3_counterexample :
    (dynMain emptyDyn "-dev" (some Err.accessDenied) none).1 =
      { tables := [{ name := "quest-teams-dev", hashKey := "teamCode", attrType := "S" }]
        ttl := [("quest-teams-dev", "expiresAt")] } ∧
    (dynMain emptyDyn "-dev" (some Err.accessDenied) none).2 =
      ["quest-sessions-dev", "quest-teams-dev"] := by
  refine ⟨by decide, by decide⟩

/-- claim C3 amended: a provider error from table creation that is not
ResourceInUseException is caught and printed and the run continues: the
state is left unchanged for that table, the next table is still
provisioned, and (likewise) a role-creation error in the deploy script is
swallowed by its re-probe fallback rather than propagated. -/
theorem claim_C3_amended (st : DynState) (n hk at_ : String) (e : Err)
    (suffix : String) (st2 : ProviderState) (rn : String)
    (he : e ≠ Err.resourceInUse) :
    create_table st n hk at_ (some e) = st ∧
    (dynMain st suffix (some e) none).1 =
      create_table st ("quest-teams" ++ suffix) "teamCode" "S" none ∧
    create_lambda_role st2 rn (some e) = (st2, get_role_arn st2 rn, []) := by
  have h1 : ∀ nm k a, create_table st nm k a (some e) = st := by
    intro nm k a
    unfold create_table dynamodb_create_table
    cases e <;> simp_all
  refine ⟨h1 n hk at_, ?_, rfl⟩
  unfold dynMain
  simp [h1]

/-- claim C3 witness: the amended statement at the empty registry with an
AccessDenied fault. -/
theorem claim_C3_witness :
    create_table emptyDyn "quest-sessions-dev" "sessionId" "S" (some Err.accessDenied) = emptyDyn ∧
    (dynMain emptyDyn "-dev" (some Err.accessDenied) none).1 =
      create_table emptyDyn ("quest-teams" ++ "-dev") "teamCode" "S" none ∧
    create_lambda_role emptyState "QuestLambdaRole-dev" (some Err.accessDenied) =
      (emptyState, get_role_arn emptyState "QuestLambdaRole-dev", []) :=
  claim_C3_amended emptyDyn "quest-sessions-dev" "sessionId" "S" Err.accessDenied
    "-dev" emptyState "QuestLambdaRole-dev" (by decide)

/-- claim C4: the permission grant is idempotent — a first call succeeds
and a second call with identical parameters has its conflict caught and
treated as success — and the except clause absorbs only
ResourceConflictException: every other provider error propagates. -/
theorem claim_C4_permission_conflict_tolerance (st : ProviderState)
    (fn sid src : String) :
    (∃ st1 ops1, permissionStep st fn sid src none = .ok (st1, ops1) ∧
       permissionStep st1 fn sid src none = .ok (st1, [])) ∧
    (∀ e : Err, e ≠ Err.resourceConflict →
       permissionStep st fn sid src (some e) = .error e) := by
  constructor
  · by_cases hc : st.permissions.any (fun p => p.fnName == fn && p.statementId == sid) = true
    · refine ⟨st, [], ?_, ?_⟩ <;> simp [permissionStep, add_permission, hc]
    · simp only [Bool.not_eq_true] at hc
      refine ⟨{ st with permissions :=
          { fnName := fn, statementId := sid
            action := "lambda:InvokeFunction", principal := "apigateway.amazonaws.com"
            sourceArn := src } :: st.permissions },
        [Op.addPermission fn sid], ?_, ?_⟩
      · simp [permissionStep, add_permission, hc]
      · simp [permissionStep, add_permission, hc]
  · intro e he
    unfold permissionStep add_permission
    cases e <;> simp_all

/-- permissionStep_none shows the permission step of main never fails under
a fault-free provider: the only possible add_permission error is the
conflict, which the except clause absorbs. -/
theorem permissionStep_none (st : ProviderState) (fn sid src : String) :
    ∃ st7 ops7, permissionStep st fn sid src none = .ok (st7, ops7) ∧
      st7.functions = st.functions ∧ st7.roles = st.roles ∧
      (ops7 = [] ∨ ops7 = [Op.addPermission fn sid]) := by
  by_cases hc : st.permissions.any (fun p => p.fnName == fn && p.statementId == sid) = true
  · exact ⟨st, [], by simp [permissionStep, add_permission, hc], rfl, rfl, Or.inl rfl⟩
  · simp only [Bool.not_eq_true] at hc
    refine ⟨{ st with permissions :=
        { fnName := fn, statementId := sid
          action := "lambda:InvokeFunction", principal := "apigateway.amazonaws.com"
          sourceArn := src } :: st.permissions },
      [Op.addPermission fn sid],
      by simp [permissionStep, add_permission, hc], rfl, rfl, Or.inr rfl⟩

/-- mainRun_eq_steps decomposes a run into its seven sequential sections:
the role step runs first, the function step consumes exactly its output,
the integration step consumes the API identifier and the function ARN, and
the reported result is assembled from those step outputs in order. -/
theorem mainRun_eq_steps (st0 : ProviderState) (region suffix : String)
    (bytes : List UInt8) (fault : Option Err) :
    ∃ st1 ra ops1 st2 ops2 st3 api ops3 st4 iid larn ops4 st5 ops5 st6 ops6 st7 ops7,
      roleStep st0 ("QuestLambdaRole" ++ suffix) fault = (st1, ra, ops1) ∧
      functionStep st1 region ("quest-api" ++ suffix) bytes (envVarsOf suffix) ra = (st2, ops2) ∧
      apiStep st2 ("quest-api-gateway" ++ suffix) = (st3, api, ops3) ∧
      integrationStep st3 api ("quest-api" ++ suffix) = (st4, iid, larn, ops4) ∧
      routeStep st4 api iid = (st5, ops5) ∧
      stageStep st5 api = (st6, ops6) ∧
      permissionStep st6 ("quest-api" ++ suffix) ("apigateway-invoke-" ++ api)
        ("arn:aws:execute-api:" ++ region ++ ":" ++ accountId ++ ":" ++ api ++ "/*/*") none
        = .ok (st7, ops7) ∧
      mainRun st0 region suffix bytes fault =
        (st7, { roleArn := ra, fnArn := larn, apiId := api, integrationId := iid
                endpoint := "https://" ++ api ++ ".execute-api." ++ region ++ ".amazonaws.com"
                ops := ops1 ++ ops2 ++ ops3 ++ ops4 ++ ops5 ++ ops6 ++ ops7 }) := by
  rcases h1 : roleStep st0 ("QuestLambdaRole" ++ suffix) fault with ⟨st1, ra, ops1⟩
  rcases h2 : functionStep st1 region ("quest-api" ++ suffix) bytes (envVarsOf suffix) ra
    with ⟨st2, ops2⟩
  rcases h3 : apiStep st2 ("quest-api-gateway" ++ suffix) with ⟨st3, api, ops3⟩
  rcases h4 : integrationStep st3 api ("quest-api" ++ suffix) with ⟨st4, iid, larn, ops4⟩
  rcases h5 : routeStep st4 api iid with ⟨st5, ops5⟩
  rcases h6 : stageStep st5 api with ⟨st6, ops6⟩
  obtain ⟨st7, ops7, h7, -, -, -⟩ := permissionStep_none st6 ("quest-api" ++ suffix)
    ("apigateway-invoke-" ++ api)
    ("arn:aws:execute-api:" ++ region ++ ":" ++ accountId ++ ":" ++ api ++ "/*/*")
  refine ⟨st1, ra, ops1, st2, ops2, st3, api, ops3, st4, iid, larn, ops4, st5, ops5,
    st6, ops6, st7, ops7, rfl, h2, h3, h4, h5, h6, h7, ?_⟩
  simp only [envVarsOf] at h2
  simp only [mainRun]
  rw [h1]; dsimp only; rw [h2]; dsimp only; rw [h3]; dsimp only; rw [h4]; dsimp only
  rw [h5]; dsimp only; rw [h6]; dsimp only; rw [h7]

/-- roleStep_inv characterizes the role section: it leaves the function
registry untouched and its trace is an optional createRole followed by the
marker recording the identifier it resolved. -/
theorem roleStep_inv (st : ProviderState) (n : String) (fault : Option Err)
    (st1 : ProviderState) (ra : Option String) (ops1 : List Op)
    (h : roleStep st n fault = (st1, ra, ops1)) :
    st1.functions = st.functions ∧
    ∃ pre, ops1 = pre ++ [Op.roleResolved ra] ∧ (pre = [] ∨ pre = [Op.createRole n]) := by
  by_cases hc : n ∈ st.roles
  · simp [roleStep, create_lambda_role, create_role, get_role_arn, hc] at h
    obtain ⟨h1, h2, h3⟩ := h
    subst h1; subst h2; subst h3
    exact ⟨rfl, [], rfl, Or.inl rfl⟩
  · cases fault with
    | some e =>
      simp [roleStep, create_lambda_role, create_role, get_role_arn, hc] at h
      obtain ⟨h1, h2, h3⟩ := h
      subst h1; subst h2; subst h3
      exact ⟨rfl, [], rfl, Or.inl rfl⟩
    | none =>
      simp [roleStep, create_lambda_role, create_role, get_role_arn, hc] at h
      obtain ⟨h1, h2, h3⟩ := h
      subst h1; subst h2; subst h3
      exact ⟨rfl, [Op.createRole n], rfl, Or.inr rfl⟩

/-- functionStep_inv characterizes the function section trace: either the
two update calls of the found branch, or a single create carrying exactly
the role identifier the section was given. -/
theorem functionStep_inv (st : ProviderState) (region n : String) (b : List UInt8)
    (e : List (String × String)) (ra : Option String)
    (st2 : ProviderState) (ops2 : List Op)
    (h : functionStep st region n b e ra = (st2, ops2)) :
    ops2 = [Op.updateFunctionCode n, Op.updateFunctionConfig n] ∨
    ops2 = [Op.createFunction n ra] := by
  cases hf : st.functions.find? (fun g => g.name == n) with
  | some f =>
    simp [functionStep, hf] at h
    exact Or.inl h.2.symm
  | none =>
    simp [functionStep, hf] at h
    exact Or.inr h.2.symm

/-- apiStep_inv characterizes the API section: it leaves the function
registry untouched and traces at most one createApi. -/
theorem apiStep_inv (st : ProviderState) (napi : String)
    (st3 : ProviderState) (api : String) (ops3 : List Op)
    (h : apiStep st napi = (st3, api, ops3)) :
    st3.functions = st.functions ∧ (ops3 = [] ∨ ops3 = [Op.createApi napi]) := by
  cases ha : st.apis.find? (fun a => a.name == napi) with
  | some a =>
    simp [apiStep, ha] at h
    obtain ⟨h1, h2, h3⟩ := h
    subst h1; subst h3
    exact ⟨rfl, Or.inl rfl⟩
  | none =>
    simp [apiStep, ha] at h
    obtain ⟨h1, h2, h3⟩ := h
    subst h1; subst h3
    exact ⟨rfl, Or.inr rfl⟩

/-- integrationStep_inv characterizes the integration section: it leaves
the function registry untouched, resolves the function ARN by probe, and
traces the resolution marker followed by at most one createIntegration at
that ARN. -/
theorem integrationStep_inv (st : ProviderState) (a f : String)
    (st4 : ProviderState) (iid larn : String) (ops4 : List Op)
    (h : integrationStep st a f = (st4, iid, larn, ops4)) :
    st4.functions = st.functions ∧ larn = lambdaArnOfState st f ∧
    (ops4 = [Op.fnResolved larn] ∨
     ops4 = [Op.fnResolved larn, Op.createIntegration a larn]) := by
  cases hi : integrationMatch st a with
  | some i =>
    simp [integrationStep, hi] at h
    obtain ⟨h1, h2, h3, h4⟩ := h
    subst h1; subst h3; subst h4
    exact ⟨rfl, rfl, Or.inl rfl⟩
  | none =>
    simp [integrationStep, hi] at h
    obtain ⟨h1, h2, h3, h4⟩ := h
    subst h1; subst h3; subst h4
    exact ⟨rfl, rfl, Or.inr rfl⟩

/-- routeStep_inv characterizes the route section: it leaves the function
registry untouched and traces at most one createRoute at the fixed
catch-all key. -/
theorem routeStep_inv (st : ProviderState) (a i : String)
    (st5 : ProviderState) (ops5 : List Op)
    (h : routeStep st a i = (st5, ops5)) :
    st5.functions = st.functions ∧ (ops5 = [] ∨ ops5 = [Op.createRoute a route_key]) := by
  by_cases hr : ((st.routes.filter (fun r => r.apiId == a)).any
      (fun r => r.routeKey == route_key)) = true
  · simp [routeStep, hr] at h
    obtain ⟨h1, h2⟩ := h
    subst h1; subst h2
    exact ⟨rfl, Or.inl rfl⟩
  · simp only [Bool.not_eq_true] at hr
    simp [routeStep, hr] at h
    obtain ⟨h1, h2⟩ := h
    subst h1; subst h2
    exact ⟨rfl, Or.inr rfl⟩

/-- stageStep_inv characterizes the stage section: it leaves the function
registry untouched and traces at most one createStage of the default
stage. -/
theorem stageStep_inv (st : ProviderState) (a : String)
    (st6 : ProviderState) (ops6 : List Op)
    (h : stageStep st a = (st6, ops6)) :
    st6.functions = st.functions ∧ (ops6 = [] ∨ ops6 = [Op.createStage a "$default"]) := by
  cases hs : (st.stages.filter (fun s => s.apiId == a)).find?
      (fun s => s.stageName == "$default") with
  | some s =>
    simp [stageStep, hs] at h
    obtain ⟨h1, h2⟩ := h
    subst h1; subst h2
    exact ⟨rfl, Or.inl rfl⟩
  | none =>
    simp [stageStep, hs] at h
    obtain ⟨h1, h2⟩ := h
    subst h1; subst h2
    exact ⟨rfl, Or.inr rfl⟩

/-- permissionStep_inv characterizes the successful permission section: it
leaves the function registry untouched and traces at most one
addPermission. -/
theorem permissionStep_inv (st : ProviderState) (fn sid src : String)
    (st7 : ProviderState) (ops7 : List Op)
    (h : permissionStep st fn sid src none = .ok (st7, ops7)) :
    st7.functions = st.functions ∧ (ops7 = [] ∨ ops7 = [Op.addPermission fn sid]) := by
  by_cases hc : (st.permissions.any (fun p => p.fnName == fn && p.statementId == sid)) = true
  · simp [permissionStep, add_permission, hc] at h
    obtain ⟨h1, h2⟩ := h
    subst h1; subst h2
    exact ⟨rfl, Or.inl rfl⟩
  · simp only [Bool.not_eq_true] at hc
    simp [permissionStep, add_permission, hc] at h
    obtain ⟨h1, h2⟩ := h
    subst h1; subst h2
    exact ⟨rfl, Or.inr rfl⟩

/-- find?_map_update shows a name-keyed find? after a name-preserving
conditional map returns the updated record of the original find?. -/
theorem find?_map_update (l : List FnRec) (nm : String) (f : FnRec) (upd : FnRec → FnRec)
    (hupd : ∀ g, (upd g).name = g.name)
    (h : l.find? (fun g => g.name == nm) = some f) :
    (l.map fun g => if (g.name == nm) = true then upd g else g).find?
      (fun g => g.name == nm) = some (upd f) := by
  induction l with
  | nil => simp at h
  | cons x xs ih =>
    by_cases hx : (x.name == nm) = true
    · have hf : x = f := by
        rw [@List.find?_cons_of_pos _ (fun g => g.name == nm) x xs hx] at h
        injection h
      subst hf
      have hux : ((upd x).name == nm) = true := by rw [hupd]; exact hx
      rw [List.map_cons, if_pos hx,
        @List.find?_cons_of_pos _ (fun g => g.name == nm) (upd x) _ hux]
    · rw [@List.find?_cons_of_neg _ (fun g => g.name == nm) x xs hx] at h
      have hgx : ¬(((if (x.name == nm) = true then upd x else x).name == nm) = true) := by
        rw [if_neg hx]; exact hx
      rw [List.map_cons,
        @List.find?_cons_of_neg _ (fun g => g.name == nm)
          (if (x.name == nm) = true then upd x else x)
          (List.map (fun g => if (g.name == nm) = true then upd g else g) xs) hgx]
      exact ih h

/-- mainRun_endpoint_form shows the reported endpoint is assembled from
exactly the resolved API identifier and the region. -/
theorem mainRun_endpoint_form (st0 : ProviderState) (region suffix : String)
    (bytes : List UInt8) (fault : Option Err) :
    (mainRun st0 region suffix bytes fault).2.endpoint =
      "https://" ++ (mainRun st0 region suffix bytes fault).2.apiId ++
        ".execute-api." ++ region ++ ".amazonaws.com" := by
  obtain ⟨st1, ra, ops1, st2, ops2, st3, api, ops3, st4, iid, larn, ops4, st5, ops5,
    st6, ops6, st7, ops7, h1, h2, h3, h4, h5, h6, h7, hm⟩ :=
    mainRun_eq_steps st0 region suffix bytes fault
  rw [hm]

/-- claim C4 witness: the idempotent grant and the propagation of an
AccessDenied error, at the empty provider. -/
theorem claim_C4_witness :
    (∃ st1 ops1, permissionStep emptyState "quest-api-dev" "apigateway-invoke-id0"
        "arn" none = .ok (st1, ops1) ∧
       permissionStep st1 "quest-api-dev" "apigateway-invoke-id0" "arn" none = .ok (st1, [])) ∧
    permissionStep emptyState "quest-api-dev" "apigateway-invoke-id0" "arn"
      (some Err.accessDenied) = .error Err.accessDenied := by
  have h := claim_C4_permission_conflict_tolerance emptyState "quest-api-dev"
    "apigateway-invoke-id0" "arn"
  exact ⟨h.1, h.2 Err.accessDenied (by decide)⟩

/-- claim C6: when the deployable already exists, a rerun updates its code
to the newly packaged bytes and its environment configuration, and changes
nothing else: the record keeps its name, ARN, attached role, runtime,
handler and timeout, and the create branch is never taken. -/
theorem claim_C6_update_frame (st : ProviderState) (region suffix : String)
    (bytes : List UInt8) (fault : Option Err) (f : FnRec)
    (h : st.functions.find? (fun g => g.name == ("quest-api" ++ suffix)) = some f) :
    ((mainRun st region suffix bytes fault).1.functions.find?
        (fun g => g.name == ("quest-api" ++ suffix)) =
      some { f with code := bytes, env := envVarsOf suffix }) ∧
    (∀ n r, Op.createFunction n r ∉ (mainRun st region suffix bytes fault).2.ops) := by
  obtain ⟨st1, ra, ops1, st2, ops2, st3, api, ops3, st4, iid, larn, ops4, st5, ops5,
    st6, ops6, st7, ops7, h1, h2, h3, h4, h5, h6, h7, hm⟩ :=
    mainRun_eq_steps st region suffix bytes fault
  obtain ⟨hf1, pre1, hops1, hpre1⟩ := roleStep_inv _ _ _ _ _ _ h1
  have hfind1 : st1.functions.find? (fun g => g.name == ("quest-api" ++ suffix)) = some f := by
    rw [hf1]; exact h
  have h2' := h2
  unfold functionStep at h2'
  rw [hfind1] at h2'
  dsimp only at h2'
  injection h2' with hst2 hops2
  have hfind2 : st2.functions.find? (fun g => g.name == ("quest-api" ++ suffix)) =
      some { f with code := bytes, env := envVarsOf suffix } := by
    rw [← hst2]
    dsimp only
    have ha := find?_map_update st1.functions ("quest-api" ++ suffix) f
      (fun g => { g with code := bytes }) (fun g => rfl) hfind1
    have hb := find?_map_update _ ("quest-api" ++ suffix) { f with code := bytes }
      (fun g => { g with env := envVarsOf suffix }) (fun g => rfl) ha
    exact hb
  obtain ⟨hf3, hops3⟩ := apiStep_inv _ _ _ _ _ h3
  obtain ⟨hf4, hlarn, hops4⟩ := integrationStep_inv _ _ _ _ _ _ _ h4
  obtain ⟨hf5, hops5⟩ := routeStep_inv _ _ _ _ _ h5
  obtain ⟨hf6, hops6⟩ := stageStep_inv _ _ _ _ h6
  obtain ⟨hf7, hops7⟩ := permissionStep_inv _ _ _ _ _ _ h7
  constructor
  · rw [hm]
    dsimp only
    rw [hf7, hf6, hf5, hf4, hf3]
    exact hfind2
  · intro n r hmem
    rw [hm] at hmem
    dsimp only at hmem
    rw [hops1, ← hops2] at hmem
    rcases hpre1 with hp | hp <;>
      rcases hops3 with h3o | h3o <;>
      rcases hops4 with h4o | h4o <;>
      rcases hops5 with h5o | h5o <;>
      rcases hops6 with h6o | h6o <;>
      rcases hops7 with h7o | h7o <;>
      simp [hp, h3o, h4o, h5o, h6o, h7o] at hmem

/-- claim C6 witness: the preservation statement at a state holding the
function with empty code, repackaged with one byte. -/
theorem claim_C6_witness :
    ((mainRun stFnOnly "us-east-1" "-dev" [7] none).1.functions.find?
        (fun g => g.name == ("quest-api" ++ "-dev")) =
      some { name := "quest-api-dev", arn := fnArnOf "us-east-1" "quest-api-dev"
             role := some (roleArnOf "QuestLambdaRole-dev"), code := [7]
             env := envVarsOf "-dev", runtime := "python3.9"
             handler := "lambda_function.lambda_handler", timeout := 15 }) ∧
    (∀ n r, Op.createFunction n r ∉ (mainRun stFnOnly "us-east-1" "-dev" [7] none).2.ops) := by
  have h := claim_C6_update_frame stFnOnly "us-east-1" "-dev" [7] none
    { name := "quest-api-dev", arn := fnArnOf "us-east-1" "quest-api-dev"
      role := some (roleArnOf "QuestLambdaRole-dev"), code := []
      env := envVarsOf "-dev", runtime := "python3.9"
      handler := "lambda_function.lambda_handler", timeout := 15 }
    (by decide)
  exact h

/-- claim C5 counterexample: in a -dev environment whose only integration
targets the foreign deployable quest-api-zzz (so no integration targets
quest-api-dev), the probe still reports a match — it returns the foreign
integration identifier and creates nothing — refuting that a match holds
only for the specific deployable of this run. -/
theorem claim_C5_counterexample :
    (∀ i ∈ stForeignInteg.integrations,
        i.uri ≠ fnArnOf "us-east-1" ("quest-api" ++ "-dev")) ∧
    (mainRun stForeignInteg "us-east-1" "-dev" [] none).2.integrationId = "intX" ∧
    (∀ o ∈ (mainRun stForeignInteg "us-east-1" "-dev" [] none).2.ops,
      o.isCreate = false) := by
  refine ⟨by decide, by decide, by decide⟩

/-- claim C5 amended: the integration probe matches the first integration
of the entry point whose target URI contains the substring quest-api —
regardless of environment suffix — and the step creates a proxy
integration at the deployable ARN with payload format 2.0 exactly when no
integration of the API has such a target. -/
theorem claim_C5_integration_probe_amended (st : ProviderState) (api_id fn : String) :
    (∀ i, integrationMatch st api_id = some i →
       integrationStep st api_id fn =
         (st, i.integrationId, lambdaArnOfState st fn,
          [Op.fnResolved (lambdaArnOfState st fn)]) ∧
       i.apiId = api_id ∧ pyIn "quest-api" i.uri = true) ∧
    (integrationMatch st api_id = none →
       integrationStep st api_id fn =
         ({ st with
             integrations := { apiId := api_id, integrationId := freshId st
                               integrationType := "AWS_PROXY"
                               uri := lambdaArnOfState st fn
                               payloadFormatVersion := "2.0" } :: st.integrations
             nextId := st.nextId + 1 },
          freshId st, lambdaArnOfState st fn,
          [Op.fnResolved (lambdaArnOfState st fn),
           Op.createIntegration api_id (lambdaArnOfState st fn)])) := by
  constructor
  · intro i hi
    have hi2 : List.find? (fun j => pyIn "quest-api" j.uri)
        (st.integrations.filter (fun j => j.apiId == api_id)) = some i := hi
    refine ⟨by simp [integrationStep, hi], ?_, ?_⟩
    · have hmem := List.mem_of_find?_eq_some hi2
      have hf := List.mem_filter.mp hmem
      exact eq_of_beq hf.2
    · exact @List.find?_some _ (fun j => pyIn "quest-api" j.uri) i _ hi2
  · intro hi
    simp [integrationStep, hi]

/-- claim C5 witness: the amended probe characterization applied at the
foreign-integration state, where the match is the quest-api-zzz
integration. -/
theorem claim_C5_witness :
    integrationStep stForeignInteg "api0" "quest-api-dev" =
      (stForeignInteg, "intX", lambdaArnOfState stForeignInteg "quest-api-dev",
       [Op.fnResolved (lambdaArnOfState stForeignInteg "quest-api-dev")]) ∧
    integX.apiId = "api0" ∧ pyIn "quest-api" integX.uri = true :=
  (claim_C5_integration_probe_amended stForeignInteg "api0" "quest-api-dev").1
    integX (by decide)

/-- functionStep_mem_preserve shows the function section never touches a
record whose name differs from the reconciled function name. -/
theorem functionStep_mem_preserve (st : ProviderState) (region n : String)
    (b : List UInt8) (e : List (String × String)) (ra : Option String)
    (st2 : ProviderState) (ops2 : List Op)
    (h : functionStep st region n b e ra = (st2, ops2))
    (f2 : FnRec) (hf2 : f2 ∈ st.functions) (hname : ¬((f2.name == n) = true)) :
    f2 ∈ st2.functions := by
  cases hf : st.functions.find? (fun g => g.name == n) with
  | some f =>
    simp only [functionStep, hf] at h
    injection h with hst2 hops2
    have hm1 : f2 ∈ st.functions.map
        (fun g => if (g.name == n) = true then { g with code := b } else g) :=
      List.mem_map.mpr ⟨f2, hf2, by rw [if_neg hname]⟩
    have hm2 : f2 ∈ (st.functions.map
        (fun g => if (g.name == n) = true then { g with code := b } else g)).map
        (fun g => if (g.name == n) = true then { g with env := e } else g) :=
      List.mem_map.mpr ⟨f2, hm1, by rw [if_neg hname]⟩
    rw [← hst2]
    exact hm2
  | none =>
    simp only [functionStep, hf] at h
    injection h with hst2 hops2
    rw [← hst2]
    exact List.mem_cons_of_mem _ hf2

/-- claim C7 counterexample: the full derived-name sets of two distinct
suffixes are not disjoint — the function name of suffix -gateway collides
with the API name of the empty (production) suffix. -/
theorem claim_C7_counterexample :
    ("-gateway" : String) ≠ "" ∧
    "quest-api-gateway" ∈ allNames "-gateway" ∧
    "quest-api-gateway" ∈ allNames "" := by
  refine ⟨by decide, by decide, by decide⟩

/-- claim C7 amended: within each resource kind, distinct suffixes derive
distinct names (role, function, API, sessions table, teams table), and a
run never mutates a function record belonging to another suffix; the full
name sets are not disjoint across kinds. -/
theorem claim_C7_name_isolation_amended (s1 s2 : String) (hne : s1 ≠ s2) :
    roleName s1 ≠ roleName s2 ∧ functionName s1 ≠ functionName s2 ∧
    apiName s1 ≠ apiName s2 ∧ sessionsName s1 ≠ sessionsName s2 ∧
    teamsName s1 ≠ teamsName s2 ∧
    (∀ st region bytes f2, f2 ∈ st.functions → f2.name = functionName s2 →
       f2 ∈ (mainRun st region s1 bytes none).1.functions) := by
  refine ⟨fun hc => hne (append_right_inj _ _ _ hc),
    fun hc => hne (append_right_inj _ _ _ hc),
    fun hc => hne (append_right_inj _ _ _ hc),
    fun hc => hne (append_right_inj _ _ _ hc),
    fun hc => hne (append_right_inj _ _ _ hc), ?_⟩
  intro st region bytes f2 hf2 hname
  obtain ⟨st1, ra, ops1, st2, ops2, st3, api, ops3, st4, iid, larn, ops4, st5, ops5,
    st6, ops6, st7, ops7, h1, h2, h3, h4, h5, h6, h7, hm⟩ :=
    mainRun_eq_steps st region s1 bytes none
  obtain ⟨hfr, -⟩ := roleStep_inv _ _ _ _ _ _ h1
  have hne2 : ¬((f2.name == ("quest-api" ++ s1)) = true) := by
    intro hb
    have heq2 : ("quest-api" ++ s2 : String) = "quest-api" ++ s1 := by
      have hx : f2.name = "quest-api" ++ s1 := eq_of_beq hb
      rw [hname] at hx
      exact hx
    exact hne (append_right_inj _ _ _ heq2).symm
  have hmem1 : f2 ∈ st1.functions := by rw [hfr]; exact hf2
  have hmem2 : f2 ∈ st2.functions :=
    functionStep_mem_preserve _ _ _ _ _ _ _ _ h2 f2 hmem1 hne2
  obtain ⟨hf3, -⟩ := apiStep_inv _ _ _ _ _ h3
  obtain ⟨hf4, -, -⟩ := integrationStep_inv _ _ _ _ _ _ _ h4
  obtain ⟨hf5, -⟩ := routeStep_inv _ _ _ _ _ h5
  obtain ⟨hf6, -⟩ := stageStep_inv _ _ _ _ h6
  obtain ⟨hf7, -⟩ := permissionStep_inv _ _ _ _ _ _ h7
  rw [hm]
  dsimp only
  rw [hf7, hf6, hf5, hf4, hf3]
  exact hmem2

/-- claim C7 witness: the amended isolation statement for the pair of
suffixes -dev and the production empty suffix. -/
theorem claim_C7_witness :
    roleName "-dev" ≠ roleName "" ∧ functionName "-dev" ≠ functionName "" ∧
    apiName "-dev" ≠ apiName "" ∧ sessionsName "-dev" ≠ sessionsName "" ∧
    teamsName "-dev" ≠ teamsName "" ∧
    (∀ st region bytes f2, f2 ∈ st.functions → f2.name = functionName "" →
       f2 ∈ (mainRun st region "-dev" bytes none).1.functions) :=
  claim_C7_name_isolation_amended "-dev" "" (by decide)

/-- claim C8 counterexample: when role creation fails and the re-probe
finds nothing, the run continues and the deployable step executes with an
unresolved (none) role identifier — refuting that later steps only run
after their dependency identifier is resolved. -/
theorem claim_C8_counterexample :
    (mainRun emptyState "us-east-1" "-dev" [] (some Err.accessDenied)).2.roleArn = none ∧
    Op.createFunction "quest-api-dev" none ∈
      (mainRun emptyState "us-east-1" "-dev" [] (some Err.accessDenied)).2.ops := by
  refine ⟨rfl, by decide⟩

/-- claim C8 amended: the pipeline is strictly ordered — the trace splits
at the role-resolution marker and then at the function-ARN marker; no
function create precedes role resolution, every function create uses
exactly the role identifier the role step resolved (which may be
unresolved after a swallowed role failure), no integration create precedes
the function-ARN resolution, and every integration create targets exactly
that ARN. -/
theorem claim_C8_ordering_amended (st0 : ProviderState) (region suffix : String)
    (bytes : List UInt8) (fault : Option Err) :
    ∃ pre mid post,
      (mainRun st0 region suffix bytes fault).2.ops =
        pre ++ [Op.roleResolved (mainRun st0 region suffix bytes fault).2.roleArn] ++
          mid ++ [Op.fnResolved (mainRun st0 region suffix bytes fault).2.fnArn] ++ post ∧
      (∀ n r, Op.createFunction n r ∉ pre) ∧
      (∀ n r, Op.createFunction n r ∈ mid →
        r = (mainRun st0 region suffix bytes fault).2.roleArn) ∧
      (∀ n r, Op.createFunction n r ∉ post) ∧
      (∀ a u, Op.createIntegration a u ∉ pre) ∧
      (∀ a u, Op.createIntegration a u ∉ mid) ∧
      (∀ a u, Op.createIntegration a u ∈ post →
        u = (mainRun st0 region suffix bytes fault).2.fnArn) := by
  obtain ⟨st1, ra, ops1, st2, ops2, st3, api, ops3, st4, iid, larn, ops4, st5, ops5,
    st6, ops6, st7, ops7, h1, h2, h3, h4, h5, h6, h7, hm⟩ :=
    mainRun_eq_steps st0 region suffix bytes fault
  obtain ⟨-, pre1, hops1, hpre1⟩ := roleStep_inv _ _ _ _ _ _ h1
  have hops2 := functionStep_inv _ _ _ _ _ _ _ _ h2
  obtain ⟨-, hops3⟩ := apiStep_inv _ _ _ _ _ h3
  obtain ⟨-, hlarn, hops4⟩ := integrationStep_inv _ _ _ _ _ _ _ h4
  obtain ⟨-, hops5⟩ := routeStep_inv _ _ _ _ _ h5
  obtain ⟨-, hops6⟩ := stageStep_inv _ _ _ _ h6
  obtain ⟨-, hops7⟩ := permissionStep_inv _ _ _ _ _ _ h7
  rw [hm]
  dsimp only
  rcases hops4 with h4o | h4o
  · refine ⟨pre1, ops2 ++ ops3, ops5 ++ ops6 ++ ops7, ?_, ?_, ?_, ?_, ?_, ?_, ?_⟩
    · rw [hops1, h4o]
      simp [List.append_assoc]
    · intro n r hmem
      rcases hpre1 with hp | hp <;> simp [hp] at hmem
    · intro n r hmem
      rcases hops2 with h2o | h2o <;> rcases hops3 with h3o | h3o <;>
        simp [h2o, h3o] at hmem <;> exact hmem.2
    · intro n r hmem
      rcases hops5 with h5o | h5o <;> rcases hops6 with h6o | h6o <;>
        rcases hops7 with h7o | h7o <;> simp [h5o, h6o, h7o] at hmem
    · intro a u hmem
      rcases hpre1 with hp | hp <;> simp [hp] at hmem
    · intro a u hmem
      rcases hops2 with h2o | h2o <;> rcases hops3 with h3o | h3o <;>
        simp [h2o, h3o] at hmem
    · intro a u hmem
      rcases hops5 with h5o | h5o <;> rcases hops6 with h6o | h6o <;>
        rcases hops7 with h7o | h7o <;> simp [h5o, h6o, h7o] at hmem
  · refine ⟨pre1, ops2 ++ ops3,
      Op.createIntegration api larn :: (ops5 ++ ops6 ++ ops7), ?_, ?_, ?_, ?_, ?_, ?_, ?_⟩
    · rw [hops1, h4o]
      simp [List.append_assoc]
    · intro n r hmem
      rcases hpre1 with hp | hp <;> simp [hp] at hmem
    · intro n r hmem
      rcases hops2 with h2o | h2o <;> rcases hops3 with h3o | h3o <;>
        simp [h2o, h3o] at hmem <;> exact hmem.2
    · intro n r hmem
      rcases hops5 with h5o | h5o <;> rcases hops6 with h6o | h6o <;>
        rcases hops7 with h7o | h7o <;> simp [h5o, h6o, h7o] at hmem
    · intro a u hmem
      rcases hpre1 with hp | hp <;> simp [hp] at hmem
    · intro a u hmem
      rcases hops2 with h2o | h2o <;> rcases hops3 with h3o | h3o <;>
        simp [h2o, h3o] at hmem
    · intro a u hmem
      simp at hmem
      rcases hmem with ⟨ha, hu⟩ | hmem
      · exact hu
      · rcases hops5 with h5o | h5o <;> rcases hops6 with h6o | h6o <;>
          rcases hops7 with h7o | h7o <;> simp [h5o, h6o, h7o] at hmem

/-- claim C8 witness: the ordering decomposition for a run from the empty
provider. -/
theorem claim_C8_witness :
    ∃ pre mid post,
      (mainRun emptyState "us-east-1" "-dev" [] none).2.ops =
        pre ++ [Op.roleResolved (mainRun emptyState "us-east-1" "-dev" [] none).2.roleArn] ++
          mid ++ [Op.fnResolved (mainRun emptyState "us-east-1" "-dev" [] none).2.fnArn] ++ post ∧
      (∀ n r, Op.createFunction n r ∉ pre) ∧
      (∀ n r, Op.createFunction n r ∈ mid →
        r = (mainRun emptyState "us-east-1" "-dev" [] none).2.roleArn) ∧
      (∀ n r, Op.createFunction n r ∉ post) ∧
      (∀ a u, Op.createIntegration a u ∉ pre) ∧
      (∀ a u, Op.createIntegration a u ∉ mid) ∧
      (∀ a u, Op.createIntegration a u ∈ post →
        u = (mainRun emptyState "us-east-1" "-dev" [] none).2.fnArn) :=
  claim_C8_ordering_amended emptyState "us-east-1" "-dev" [] none

/-- claim C9 counterexample: the endpoint the code reports is the
execute-api amazonaws.com form, not the example-provider.net form the
claim states. -/
theorem claim_C9_counterexample :
    (mainRun emptyState "us-east-1" "-dev" [] none).2.endpoint ≠
      specEndpoint (mainRun emptyState "us-east-1" "-dev" [] none).2.apiId "us-east-1" ∧
    (mainRun emptyState "us-east-1" "-dev" [] none).2.endpoint =
      "https://id0.execute-api.us-east-1.amazonaws.com" := by
  refine ⟨by decide, by decide⟩

/-- claim C9 amended: on success the endpoint is derived deterministically
from exactly the entry-point identifier and the region, in the form
https://{apiId}.execute-api.{region}.amazonaws.com, so two runs resolving
the same entry-point id in the same region report the same endpoint. -/
theorem claim_C9_endpoint_amended (st0 st0b : ProviderState)
    (region suffixa suffixb : String) (ba bb : List UInt8) (fa fb : Option Err) :
    (mainRun st0 region suffixa ba fa).2.endpoint =
      "https://" ++ (mainRun st0 region suffixa ba fa).2.apiId ++
        ".execute-api." ++ region ++ ".amazonaws.com" ∧
    ((mainRun st0 region suffixa ba fa).2.apiId = (mainRun st0b region suffixb bb fb).2.apiId →
      (mainRun st0 region suffixa ba fa).2.endpoint =
        (mainRun st0b region suffixb bb fb).2.endpoint) := by
  refine ⟨mainRun_endpoint_form st0 region suffixa ba fa, fun h => ?_⟩
  rw [mainRun_endpoint_form st0 region suffixa ba fa,
    mainRun_endpoint_form st0b region suffixb bb fb, h]

/-- claim C9 witness: two runs from the empty provider (suffixes -dev and
-stage) resolve the same fresh identifier and report the same endpoint. -/
theorem claim_C9_witness :
    (mainRun emptyState "us-east-1" "-dev" [] none).2.endpoint =
      "https://" ++ (mainRun emptyState "us-east-1" "-dev" [] none).2.apiId ++
        ".execute-api." ++ "us-east-1" ++ ".amazonaws.com" ∧
    (mainRun emptyState "us-east-1" "-dev" [] none).2.endpoint =
      (mainRun emptyState "us-east-1" "-stage" [] none).2.endpoint := by
  have h := claim_C9_endpoint_amended emptyState emptyState "us-east-1" "-dev" "-stage"
    [] [] none none
  exact ⟨h.1, h.2 (by decide)⟩

mutual

/-- zipFiles_mem shows a file below an entry is archived exactly when its
name ends in .py, under the same relative path os.walk reports it at. -/
theorem zipFiles_mem : ∀ (e : Entry) (pre p : List String) (n : String),
    (p, n) ∈ zipFiles pre e ↔ ((p, n) ∈ allFiles pre e ∧ n.endsWith ".py" = true)
  | .file m, pre, p, n => by
    by_cases hm : m.endsWith ".py" = true
    · simp only [zipFiles, allFiles, if_pos hm, List.mem_singleton, Prod.mk.injEq]
      constructor
      · rintro ⟨rfl, rfl⟩
        exact ⟨⟨rfl, rfl⟩, hm⟩
      · rintro ⟨⟨rfl, rfl⟩, -⟩
        exact ⟨rfl, rfl⟩
    · simp only [zipFiles, allFiles, if_neg hm, List.not_mem_nil, List.mem_singleton,
        Prod.mk.injEq, false_iff]
      rintro ⟨⟨rfl, rfl⟩, he⟩
      exact hm he
  | .dir d cs, pre, p, n => by
    simp only [zipFiles, allFiles]
    exact zipFilesList_mem cs (pre ++ [d]) p n

/-- zipFilesList_mem extends zipFiles_mem to a list of entries. -/
theorem zipFilesList_mem : ∀ (cs : List Entry) (pre p : List String) (n : String),
    (p, n) ∈ zipFilesList pre cs ↔ ((p, n) ∈ allFilesList pre cs ∧ n.endsWith ".py" = true)
  | [], pre, p, n => by simp [zipFilesList, allFilesList]
  | e :: es, pre, p, n => by
    simp only [zipFilesList, allFilesList, List.mem_append]
    rw [zipFiles_mem e pre p n, zipFilesList_mem es pre p n]
    tauto

end

/-- claim C10: the archive create_zip builds contains exactly the files
below the source directory whose names end in .py, each stored under its
path relative to the source directory; every other file is omitted. -/
theorem claim_C10_zip_exactly_py (cs : List Entry) (p : List String) (n : String) :
    (p, n) ∈ create_zip cs ↔ ((p, n) ∈ allFilesList [] cs ∧ n.endsWith ".py" = true) :=
  zipFilesList_mem cs [] p n

end QuestDeploy
